import Mathlib

/-!
Shallow embedding of the colombia-salary-viz-2025 filter-and-aggregate core.

JavaScript numbers are modeled as `Option ℚ`: `none` is the non-numeric
value `NaN` (JS division by zero, which yields `NaN` or `±Infinity`, is
also mapped to `none`; no finite datum in this program produces an
infinity otherwise).  Every JS comparison involving `NaN` is `false`,
and `NaN` propagates through arithmetic, which the operations below
reproduce.
-/

namespace SalaryViz

/-- A JavaScript number: `some q` is the finite number `q`, `none` is `NaN`. -/
abbrev JSNum := Option ℚ

/-- JS `x <= y`: false whenever either side is `NaN`. -/
def jsLe : JSNum → JSNum → Bool
  | some a, some b => a ≤ b
  | _, _ => false

/-- JS `x >= y`: false whenever either side is `NaN`. -/
def jsGe (a b : JSNum) : Bool := jsLe b a

/-- JS addition: `NaN` propagates. -/
def jsAdd : JSNum → JSNum → JSNum
  | some a, some b => some (a + b)
  | _, _ => none

/-- JS multiplication: `NaN` propagates. -/
def jsMul : JSNum → JSNum → JSNum
  | some a, some b => some (a * b)
  | _, _ => none

/-- JS division: `NaN` propagates; division by zero (`NaN` or `±Infinity`
in JS) is mapped to the non-numeric value `none`. -/
def jsDiv : JSNum → JSNum → JSNum
  | some a, some b => if b = 0 then none else some (a / b)
  | _, _ => none

/-- JS `x <= Infinity`: true exactly when `x` is a number (`NaN` fails
every comparison, every finite number is below `Infinity`). -/
def jsLeInfinity : JSNum → Bool
  | some _ => true
  | none => false

/-- JS truthiness of `object[key]` lookup results: an absent key gives
`undefined`, which is falsy; a present boolean is its own truth value. -/
def jsTruthy : Option Bool → Bool
  | some b => b
  | none => false

/-- JS `Math.round`: round half toward positive infinity. -/
def jsRound (q : ℚ) : ℚ := (⌊q + 1 / 2⌋ : ℤ)

/-- `Math.round(x * 1000) / 1000` as applied to mean/median results;
`Math.round(NaN)` and `Math.round(undefined)` are `NaN`. -/
def roundTo3 : JSNum → JSNum
  | some q => some (jsRound (q * 1000) / 1000)
  | none => none

/-- A normalized survey row as produced by `processData` in `App.js`:
the string fields are kept verbatim (the source compares them against
string literals), the numeric fields are JS numbers obtained by unary
`+` coercion, hence possibly `NaN`. -/
structure SurveyRecord where
  currency : String
  mainProgrammingLanguage : String
  companyType : String
  position : String
  workmode : String
  contractType : String
  minExperience : JSNum
  maxExperience : JSNum
  englishLevel : JSNum
  maxTitle : JSNum
  incomeInCurrency : JSNum
deriving DecidableEq, Repr

/-- A survey row after the `salaryData.map` step of the recomputation
effect in `App.js`, which attaches the derived `income-cop` field
(the record object itself is otherwise untouched). -/
structure AnnotatedRecord where
  record : SurveyRecord
  incomeCop : JSNum
deriving DecidableEq, Repr

/-- An inclusive `{min, max}` range as stored in the `filters` state. -/
structure RangeF where
  min : ℚ
  max : ℚ
deriving DecidableEq, Repr

/-- The `filters` state object of `App.js`. -/
structure FilterState where
  exchangeRate : ℚ
  experience : RangeF
  englishLevel : RangeF
  maxTitle : RangeF
  factorPrestacional : ℚ
deriving DecidableEq, Repr

/-- The `contractTypeFilters` state object: a JS object mapping
contract-type labels to booleans, modeled as an association list
(lookup of an absent key gives `undefined`, i.e. `none`). -/
abbrev ContractTypeFilters := List (String × Bool)

/-- `const maxSalary = 1000000000` in `App.js`. -/
def maxSalary : ℚ := 1000000000

/-- The initial `contractTypeFilters` state in `App.js`. -/
def defaultContractTypeFilters : ContractTypeFilters :=
  [("Laboral", true), ("Prestación de servicios/Contractor/Independiente", true)]

/-- The `let baseSalary = ...` of the `salaryData.map` step (`App.js`
lines 112-115): `d.currency === 'Pesos' ? d.income-in-currency / 1e6
: (d.income-in-currency * filters.exchangeRate) / 1e6`. -/
def baseSalary (f : FilterState) (d : SurveyRecord) : JSNum :=
  if d.currency = "Pesos" then
    jsDiv d.incomeInCurrency (some 1000000)
  else
    jsDiv (jsMul d.incomeInCurrency (some f.exchangeRate)) (some 1000000)

/-- The `income-cop` computation of the `salaryData.map` step
(`App.js` lines 112-120): currency conversion into millions of pesos,
then the prestacional factor applied only to `Laboral` contracts. -/
def comparableIncome (f : FilterState) (d : SurveyRecord) : JSNum :=
  if d.contractType = "Laboral" then
    jsMul (baseSalary f d) (some (1 + f.factorPrestacional))
  else
    baseSalary f d

/-- One step of the `salaryData.map`: attach `income-cop`. -/
def annotate (f : FilterState) (d : SurveyRecord) : AnnotatedRecord :=
  ⟨d, comparableIncome f d⟩

/-- `salaryData.map((d) => { ... d.income-cop = baseSalary; return d; })`. -/
def annotateAll (f : FilterState) (rs : List SurveyRecord) : List AnnotatedRecord :=
  rs.map (annotate f)

/-- The combined filter predicate of `newSalaryData.filter` (`App.js`
lines 126-139), conjunct for conjunct in source order.  The source
compares `d.min-experience <= (filters.experience.max >= 15 ? Infinity
: filters.experience.max)`; the `Infinity` branch is `jsLeInfinity`,
true exactly for non-`NaN` values. -/
def passesFilter (f : FilterState) (ctf : ContractTypeFilters) (a : AnnotatedRecord) : Bool :=
  jsLe a.incomeCop (some maxSalary) &&
  (if f.experience.max ≥ 15 then
     jsLeInfinity a.record.minExperience
   else
     jsLe a.record.minExperience (some f.experience.max)) &&
  jsGe a.record.maxExperience (some f.experience.min) &&
  jsGe a.record.englishLevel (some f.englishLevel.min) &&
  jsLe a.record.englishLevel (some f.englishLevel.max) &&
  jsGe a.record.maxTitle (some f.maxTitle.min) &&
  jsLe a.record.maxTitle (some f.maxTitle.max) &&
  jsTruthy (ctf.lookup a.record.contractType)

/-- The filtered subset: `newSalaryData` after the `.filter` call. -/
def filteredData (f : FilterState) (ctf : ContractTypeFilters)
    (rs : List SurveyRecord) : List AnnotatedRecord :=
  (annotateAll f rs).filter (passesFilter f ctf)

/-- `setNumberOfPeople(newSalaryData.length)`. -/
def numberOfPeople (f : FilterState) (ctf : ContractTypeFilters)
    (rs : List SurveyRecord) : ℕ :=
  (filteredData f ctf rs).length

/-- JS array indexing `s[i]` on a numeric array with a possibly negative
index: out of bounds gives `undefined`, modeled as the non-numeric value. -/
def listGetZ (s : List ℚ) (i : ℤ) : JSNum :=
  if i < 0 then none else s.get? i.toNat

/-- Numeric ascending sort, the result of JS `array.sort(d3.ascending)`
on an array of numbers. -/
def sortQ (l : List ℚ) : List ℚ :=
  l.insertionSort (· ≤ ·)

/-- The median-of-a-sorted-array computation shared by `d3.median` and
the median reduce functions in `components/bar/index.js`:
`middle = floor(length / 2)`, odd length takes `values[middle]`, even
length averages `values[middle - 1]` and `values[middle]` (on the empty
array both reads give `undefined` and the result is `NaN`). -/
def medianOfSorted (s : List ℚ) : JSNum :=
  let middle : ℤ := (s.length : ℤ) / 2
  if s.length % 2 ≠ 0 then
    listGetZ s middle
  else
    jsDiv (jsAdd (listGetZ s (middle - 1)) (listGetZ s middle)) (some 2)

/-- `d3.mean` over a projected array: non-numeric values are ignored,
the empty case gives `undefined` (`none`). -/
def d3mean (xs : List JSNum) : JSNum :=
  let ys := xs.filterMap id
  if ys.length = 0 then none else some (ys.sum / ys.length)

/-- `d3.median` over a projected array: non-numeric values are ignored,
the empty case gives `undefined`; on `n ≥ 1` numeric values it is the
middle of the sorted array (odd `n`) or the average of the two middle
elements (even `n`), which is what `d3.quantile` at `p = 0.5` yields. -/
def d3median (xs : List JSNum) : JSNum :=
  medianOfSorted (sortQ (xs.filterMap id))

/-- `setSalaryMean(Math.round(d3.mean(newSalaryData, d => d.income-cop) * 1000) / 1000)`. -/
def salaryMean (f : FilterState) (ctf : ContractTypeFilters)
    (rs : List SurveyRecord) : JSNum :=
  roundTo3 (d3mean ((filteredData f ctf rs).map (·.incomeCop)))

/-- `setSalaryMedian(Math.round(d3.median(newSalaryData, d => d.income-cop) * 1000) / 1000)`. -/
def salaryMedian (f : FilterState) (ctf : ContractTypeFilters)
    (rs : List SurveyRecord) : JSNum :=
  roundTo3 (d3median ((filteredData f ctf rs).map (·.incomeCop)))

/-! ### The Bar component (`components/bar/index.js`)

The component builds a crossfilter over the (already filtered) data,
one dimension on a categorical field, and a group whose value is
maintained by a reduce-add / reduce-remove pair.  The add and remove
functions are transcribed below exactly as written, including the
`p.sum += v[y]` in the mean REMOVE function and the
`p.values.filter(value => value !== v[y])` in the median remove. -/

/-- The mean reduce accumulator `{ count, sum, avg }`. -/
structure MeanState where
  count : ℤ
  sum : JSNum
  avg : JSNum
deriving DecidableEq, Repr

/-- The reduce initial value `() => ({ count: 0, sum: 0, avg: 0 })`. -/
def meanInitial : MeanState := ⟨0, some 0, some 0⟩

/-- Mean reduce-add: `++p.count; p.sum += v[y]; p.avg = p.sum / p.count;`. -/
def meanReduceAdd (p : MeanState) (v : JSNum) : MeanState :=
  let count := p.count + 1
  let sum := jsAdd p.sum v
  ⟨count, sum, jsDiv sum (some (count : ℚ))⟩

/-- Mean reduce-remove: `--p.count; p.sum += v[y]; p.avg = p.sum / p.count;`
(the source adds `v[y]` on removal as well). -/
def meanReduceRemove (p : MeanState) (v : JSNum) : MeanState :=
  let count := p.count - 1
  let sum := jsAdd p.sum v
  ⟨count, sum, jsDiv sum (some (count : ℚ))⟩

/-- The median reduce accumulator `{ values, median }`.  The values are
numeric: the Bar component only ever receives the filtered subset, whose
metric values all satisfy `income-cop <= maxSalary` and hence are numbers
(JS `sort` on an array containing `NaN` has no specified order, so the
non-numeric case is left outside the model). -/
structure MedianState where
  values : List ℚ
  median : JSNum
deriving DecidableEq, Repr

/-- The reduce initial value `() => ({ values: [], median: 0 })`. -/
def medianInitial : MedianState := ⟨[], some 0⟩

/-- Median reduce-add: push `v[y]`, sort ascending, take
`values[middle]` for odd length and the average of `values[middle-1]`
and `values[middle]` for even length. -/
def medianReduceAdd (p : MedianState) (v : ℚ) : MedianState :=
  let values := sortQ (p.values ++ [v])
  ⟨values, medianOfSorted values⟩

/-- Median reduce-remove: `p.values = p.values.filter(value => value !== v[y])`
(this drops EVERY occurrence equal to `v[y]`), then re-sort and re-pick. -/
def medianReduceRemove (p : MedianState) (v : ℚ) : MedianState :=
  let values := sortQ (p.values.filter (fun w => w != v))
  ⟨values, medianOfSorted values⟩

/-- One crossfilter maintenance event on a group: a record whose metric
value is `v` enters (`add`) or leaves (`remove`) the group. -/
inductive GroupOp where
  | add (v : ℚ)
  | remove (v : ℚ)
deriving DecidableEq, Repr

/-- Apply one event to the mean accumulator. -/
def meanStep (p : MeanState) : GroupOp → MeanState
  | .add v => meanReduceAdd p (some v)
  | .remove v => meanReduceRemove p (some v)

/-- The maintained mean accumulator after a sequence of events. -/
def runMean (ops : List GroupOp) : MeanState :=
  ops.foldl meanStep meanInitial

/-- Apply one event to the median accumulator. -/
def medianStep (p : MedianState) : GroupOp → MedianState
  | .add v => medianReduceAdd p v
  | .remove v => medianReduceRemove p v

/-- The maintained median accumulator after a sequence of events. -/
def runMedian (ops : List GroupOp) : MedianState :=
  ops.foldl medianStep medianInitial

/-- The multiset of values of the records currently in the group: an add
inserts one occurrence, a remove deletes one occurrence (crossfilter
removes exactly the one record that left the filter). -/
def memberStep (l : List ℚ) : GroupOp → List ℚ
  | .add v => l ++ [v]
  | .remove v => l.erase v

/-- The group's current member values after a sequence of events. -/
def currentMembers (ops : List GroupOp) : List ℚ :=
  ops.foldl memberStep []

/-- From-scratch mean of the current member values (`sum/count`,
undefined on the empty group). -/
def scratchMean (l : List ℚ) : JSNum :=
  if l.length = 0 then none else some (l.sum / l.length)

/-- From-scratch median of the current member values: sort ascending and
pick the middle element (odd count) or the average of the two middle
elements (even count). -/
def scratchMedian (l : List ℚ) : JSNum :=
  medianOfSorted (sortQ l)

/-- The categorical fields the Bar component is invoked with
(`x` prop: `main-programming-language`, `company-type`, `workmode`). -/
inductive GroupField where
  | mainProgrammingLanguage
  | companyType
  | workmode
deriving DecidableEq, Repr

/-- `d[x]`, the dimension key of a record. -/
def fieldValue : GroupField → AnnotatedRecord → String
  | .mainProgrammingLanguage, a => a.record.mainProgrammingLanguage
  | .companyType, a => a.record.companyType
  | .workmode, a => a.record.workmode

/-- The `metric` prop of the Bar component. -/
inductive Metric where
  | mean
  | median
deriving DecidableEq, Repr

/-- One element of `processedData`: the group key (after relabeling) and
its `valueToShow`. -/
structure BarEntry where
  key : String
  valueToShow : JSNum
deriving DecidableEq, Repr

/-- The crossfilter dimension groups: one group per distinct value of
`d[x]` among the records (order irrelevant here, the final ordering is
fixed by the sort in `processedData`). -/
def groupKeys (x : GroupField) (data : List AnnotatedRecord) : List String :=
  (data.map (fieldValue x)).dedup

/-- The records of the group with key `k`. -/
def groupMembers (x : GroupField) (data : List AnnotatedRecord) (k : String) :
    List AnnotatedRecord :=
  data.filter (fun a => fieldValue x a == k)

/-- The maintained group value for the mean metric: the reduce-add fold
over the group members (the Bar component installs no dimension filter,
so only reduce-add events occur while the chart is built). -/
def groupMeanValue (x : GroupField) (data : List AnnotatedRecord) (k : String) : JSNum :=
  (((groupMembers x data k).map (·.incomeCop)).foldl meanReduceAdd meanInitial).avg

/-- The maintained group value for the median metric: the reduce-add fold
over the (numeric) metric values of the group members. -/
def groupMedianValue (x : GroupField) (data : List AnnotatedRecord) (k : String) : JSNum :=
  ((((groupMembers x data k).map (·.incomeCop)).filterMap id).foldl
    medianReduceAdd medianInitial).median

/-- `d.value.avg` or `d.value.median` according to the `metric` prop. -/
def groupValue (metric : Metric) (x : GroupField) (data : List AnnotatedRecord)
    (k : String) : JSNum :=
  match metric with
  | .mean => groupMeanValue x data k
  | .median => groupMedianValue x data k

/-- The relabeling in `processedData`: the key
`"Otro lenguaje de programación"` becomes `"Otro"`, only when grouping
by programming language. -/
def relabelKey (x : GroupField) (k : String) : String :=
  if x = GroupField.mainProgrammingLanguage ∧ k = "Otro lenguaje de programación" then
    "Otro"
  else
    k

/-- One mapped entry of `processedData`:
`valueToShow = Math.round((metric === mean ? avg : median) * 1000) / 1000`
and the key relabeling. -/
def mkEntry (x : GroupField) (metric : Metric) (data : List AnnotatedRecord)
    (k : String) : BarEntry :=
  ⟨relabelKey x k, roundTo3 (groupValue metric x data k)⟩

/-- The `.filter(d => d.valueToShow && !isNaN(d.valueToShow) && d.valueToShow > 0)`
predicate: `NaN` and `0` are falsy, so exactly the positive numbers pass
(a negative number is truthy and not `NaN` but fails `> 0`). -/
def truthyPositive : JSNum → Bool
  | some q => decide (q ≠ 0) && decide (0 < q)
  | none => false

/-- A JS number viewed inside `WithBot ℚ` (the non-numeric value at the
bottom), used only to phrase the sort order of `processedData`. -/
def toBot (x : JSNum) : WithBot ℚ :=
  match x with
  | some q => (q : WithBot ℚ)
  | none => ⊥

/-- The comparison the final `.sort((a, b) => d3.ascending(a.valueToShow,
b.valueToShow))` establishes, extended to a total order by sending the
non-numeric value to the bottom (after the preceding filter every
`valueToShow` is numeric, so the extension is never exercised). -/
def entryLe (a b : BarEntry) : Prop :=
  toBot a.valueToShow ≤ toBot b.valueToShow

instance : DecidableRel entryLe := fun a b =>
  inferInstanceAs (Decidable (toBot a.valueToShow ≤ toBot b.valueToShow))

instance : IsTotal BarEntry entryLe :=
  ⟨fun a b => le_total (toBot a.valueToShow) (toBot b.valueToShow)⟩

instance : IsTrans BarEntry entryLe :=
  ⟨fun _ _ _ hab hbc => le_trans (α := WithBot ℚ) hab hbc⟩

/-- `processedData` of the Bar component: map the groups to entries,
drop the non-positive / non-numeric ones, sort ascending by
`valueToShow`. -/
def processedData (x : GroupField) (metric : Metric)
    (data : List AnnotatedRecord) : List BarEntry :=
  (((groupKeys x data).map (mkEntry x metric data)).filter
    (fun e => truthyPositive e.valueToShow)).insertionSort entryLe

/-! ### Auxiliary definitions used only to state the claims -/

/-- `comparableIncome` written exactly as the specification states it
(spec §4.1), over plain rational inputs. -/
def comparableIncomeSpec (currency contractType : String)
    (rawIncome exchangeRate prestacionalFactor : ℚ) : ℚ :=
  let base :=
    if currency = "Pesos" then rawIncome / 1000000
    else rawIncome * exchangeRate / 1000000
  if contractType = "Laboral" then base * (1 + prestacionalFactor) else base

/-- The filter state with the prestacional factor replaced and
everything else fixed. -/
def setFactor (f : FilterState) (p : ℚ) : FilterState :=
  ⟨f.exchangeRate, f.experience, f.englishLevel, f.maxTitle, p⟩

/-- The filter state with the exchange rate replaced and everything
else fixed. -/
def setRate (f : FilterState) (e : ℚ) : FilterState :=
  ⟨e, f.experience, f.englishLevel, f.maxTitle, f.factorPrestacional⟩

/-- The individual predicate 1 of spec §4.2: `comparableIncome ≤ incomeCeiling`. -/
def incomeOk (a : AnnotatedRecord) : Bool :=
  jsLe a.incomeCop (some maxSalary)

/-- The individual predicate 2 of spec §4.2: experience-interval overlap,
a state maximum at the scale ceiling 15 treated as the unbounded bound
`Infinity`. -/
def experienceOk (f : FilterState) (a : AnnotatedRecord) : Bool :=
  (if f.experience.max ≥ 15 then
     jsLeInfinity a.record.minExperience
   else
     jsLe a.record.minExperience (some f.experience.max)) &&
  jsGe a.record.maxExperience (some f.experience.min)

/-- The individual predicate 3 of spec §4.2: english level inclusively
within the state range. -/
def englishOk (f : FilterState) (a : AnnotatedRecord) : Bool :=
  jsGe a.record.englishLevel (some f.englishLevel.min) &&
  jsLe a.record.englishLevel (some f.englishLevel.max)

/-- The individual predicate 4 of spec §4.2: education level inclusively
within the state range. -/
def educationOk (f : FilterState) (a : AnnotatedRecord) : Bool :=
  jsGe a.record.maxTitle (some f.maxTitle.min) &&
  jsLe a.record.maxTitle (some f.maxTitle.max)

/-- The individual predicate 5 of spec §4.2: the contract-type mapping
enables the record's contract type. -/
def contractOk (ctf : ContractTypeFilters) (a : AnnotatedRecord) : Bool :=
  jsTruthy (ctf.lookup a.record.contractType)

/-- The filter state of the concrete spec scenario (§8): exchange rate
4000, prestacional factor 0.35, every range wide open. -/
def sampleFilters : FilterState :=
  ⟨4000, ⟨0, 15⟩, ⟨0, 4⟩, ⟨0, 7⟩, 7 / 20⟩

/-- Scenario record 1: Pesos, raw income 50,000,000, Laboral contract. -/
def sampleRecord1 : SurveyRecord :=
  ⟨"Pesos", "Java", "Privada", "Dev", "Remoto", "Laboral",
    some 3, some 5, some 2, some 5, some 50000000⟩

/-- Scenario record 2: Dollars, raw income 2,000, contractor contract. -/
def sampleRecord2 : SurveyRecord :=
  ⟨"Dollars", "Python", "Privada", "Dev", "Remoto",
    "Prestación de servicios/Contractor/Independiente",
    some 3, some 5, some 2, some 5, some 2000⟩

/-- A record with an unknown contract-type label (not a key of the
default `contractTypeFilters` mapping). -/
def sampleRecord3 : SurveyRecord :=
  ⟨"Pesos", "Java", "Privada", "Dev", "Remoto", "Becario",
    some 3, some 5, some 2, some 5, some 50000000⟩

/-- A malformed row: every expected-numeric field parsed to `NaN`. -/
def malformedRecord : SurveyRecord :=
  ⟨"Pesos", "Java", "Privada", "Dev", "Remoto", "Laboral",
    none, none, none, none, none⟩

/-! ### Theorems -/

/-- C1: for every record with a numeric raw income and every filter
state, the derived comparable income is the spec formula
(`rawIncome/1e6` for Pesos, `rawIncome*exchangeRate/1e6` otherwise,
times `1 + prestacionalFactor` exactly when the contract is `Laboral`);
and on the concrete scenario — (Pesos, 50,000,000, Laboral) and
(Dollars, 2,000, Contractor) with exchange rate 4000 and factor 0.35 —
the comparable incomes are 67.5 and 8.0 and the pipeline's overall mean
and median are both 37.75. -/
theorem comparableIncome_matches_spec_and_sample :
    (∀ (f : FilterState) (d : SurveyRecord) (r : ℚ),
      d.incomeInCurrency = some r →
      comparableIncome f d =
        some (comparableIncomeSpec d.currency d.contractType r
          f.exchangeRate f.factorPrestacional)) ∧
    comparableIncome sampleFilters sampleRecord1 = some (135 / 2) ∧
    comparableIncome sampleFilters sampleRecord2 = some 8 ∧
    salaryMean sampleFilters defaultContractTypeFilters
      [sampleRecord1, sampleRecord2] = some (151 / 4) ∧
    salaryMedian sampleFilters defaultContractTypeFilters
      [sampleRecord1, sampleRecord2] = some (151 / 4) := by
  refine ⟨?_, ?_, ?_, ?_, ?_⟩
  · intro f d r h
    by_cases hc : d.currency = "Pesos" <;>
      by_cases hl : d.contractType = "Laboral" <;>
        norm_num [comparableIncome, comparableIncomeSpec, baseSalary,
          jsDiv, jsMul, h, hc, hl]
  · norm_num +decide [comparableIncome, baseSalary, sampleFilters, sampleRecord1,
      jsDiv, jsMul]
  · norm_num +decide [comparableIncome, baseSalary, sampleFilters, sampleRecord2,
      jsDiv, jsMul]
  · norm_num +decide [salaryMean, filteredData, annotateAll, annotate, passesFilter,
      comparableIncome, baseSalary, sampleFilters, sampleRecord1, sampleRecord2,
      defaultContractTypeFilters, jsDiv, jsMul, jsLe, jsGe, jsLeInfinity, jsTruthy,
      maxSalary, d3mean, roundTo3, jsRound, List.lookup, List.filter, List.filterMap]
  · norm_num +decide [salaryMedian, filteredData, annotateAll, annotate, passesFilter,
      comparableIncome, baseSalary, sampleFilters, sampleRecord1, sampleRecord2,
      defaultContractTypeFilters, jsDiv, jsMul, jsLe, jsGe, jsLeInfinity, jsTruthy,
      maxSalary, d3median, sortQ, medianOfSorted, listGetZ, jsAdd, roundTo3, jsRound,
      List.lookup, List.filter, List.filterMap, List.insertionSort, List.orderedInsert]

/-- Witness for C1: the general clause applied to scenario record 1. -/
theorem comparableIncome_matches_spec_and_sample_witness :
    comparableIncome sampleFilters sampleRecord1 =
      some (comparableIncomeSpec sampleRecord1.currency sampleRecord1.contractType
        50000000 sampleFilters.exchangeRate sampleFilters.factorPrestacional) :=
  comparableIncome_matches_spec_and_sample.1 sampleFilters sampleRecord1 50000000 rfl

/-- C5: a `Laboral` record's comparable income is the factor-free base
salary (which does not mention the prestacional factor) multiplied by
`1 + prestacionalFactor`, so it scales linearly with that factor; for
every other contract type the comparable income does not change when
the prestacional factor changes with all else fixed. -/
theorem prestacional_factor_effect :
    (∀ (f : FilterState) (d : SurveyRecord) (p : ℚ),
      d.contractType = "Laboral" →
      comparableIncome (setFactor f p) d = jsMul (baseSalary f d) (some (1 + p))) ∧
    (∀ (f : FilterState) (d : SurveyRecord) (p q : ℚ),
      d.contractType ≠ "Laboral" →
      comparableIncome (setFactor f p) d = comparableIncome (setFactor f q) d) := by
  constructor
  · intro f d p hl
    simp [comparableIncome, baseSalary, setFactor, hl]
  · intro f d p q hl
    simp [comparableIncome, baseSalary, setFactor, hl]

/-- Witness for C5: both clauses applied at the scenario records. -/
theorem prestacional_factor_effect_witness :
    comparableIncome (setFactor sampleFilters (7 / 20)) sampleRecord1 =
      jsMul (baseSalary sampleFilters sampleRecord1) (some (1 + 7 / 20)) ∧
    comparableIncome (setFactor sampleFilters (7 / 20)) sampleRecord2 =
      comparableIncome (setFactor sampleFilters (1 / 2)) sampleRecord2 :=
  ⟨prestacional_factor_effect.1 sampleFilters sampleRecord1 (7 / 20) rfl,
   prestacional_factor_effect.2 sampleFilters sampleRecord2 (7 / 20) (1 / 2)
     (by decide)⟩

/-- C6: a Pesos record's comparable income does not change when the
exchange rate changes with all else fixed; a Dollars record with a
numeric raw income has a coefficient `k` (independent of the rate) with
comparable income `k * exchangeRate` for every rate, i.e. it scales
linearly with the exchange rate. -/
theorem exchange_rate_effect :
    (∀ (f : FilterState) (d : SurveyRecord) (e₁ e₂ : ℚ),
      d.currency = "Pesos" →
      comparableIncome (setRate f e₁) d = comparableIncome (setRate f e₂) d) ∧
    (∀ (f : FilterState) (d : SurveyRecord) (r : ℚ),
      d.currency = "Dollars" → d.incomeInCurrency = some r →
      ∃ k : ℚ, ∀ e : ℚ,
        comparableIncome (setRate f e) d = some (k * e)) := by
  constructor
  · intro f d e₁ e₂ hc
    simp [comparableIncome, baseSalary, setRate, hc]
  · intro f d r hc hr
    refine ⟨r / 1000000 *
      (if d.contractType = "Laboral" then 1 + f.factorPrestacional else 1), ?_⟩
    intro e
    have hc' : d.currency ≠ "Pesos" := by
      rw [hc]
      decide
    by_cases hl : d.contractType = "Laboral" <;>
      · simp [comparableIncome, baseSalary, setRate, jsDiv, jsMul, hc', hl, hr]
        ring

/-- Witness for C6: both clauses applied at the scenario records. -/
theorem exchange_rate_effect_witness :
    comparableIncome (setRate sampleFilters 4000) sampleRecord1 =
      comparableIncome (setRate sampleFilters 4500) sampleRecord1 ∧
    ∃ k : ℚ, ∀ e : ℚ,
      comparableIncome (setRate sampleFilters e) sampleRecord2 = some (k * e) :=
  ⟨exchange_rate_effect.1 sampleFilters sampleRecord1 4000 4500 rfl,
   exchange_rate_effect.2 sampleFilters sampleRecord2 2000 rfl rfl⟩

/-- C2: the engine's combined filter predicate is exactly the
conjunction of the five individual spec predicates (income ceiling,
experience overlap with the at-ceiling maximum treated as unbounded,
english range, education range, contract-type mapping enabled); the
filtered subset is a sublist of the annotated record collection; and
membership in the filtered subset is equivalent to membership in the
collection plus all five predicates — the intersection of the
individual predicates. -/
theorem filter_predicate_decomposition :
    (∀ (f : FilterState) (ctf : ContractTypeFilters) (a : AnnotatedRecord),
      passesFilter f ctf a =
        (incomeOk a && experienceOk f a && englishOk f a && educationOk f a &&
          contractOk ctf a)) ∧
    (∀ (f : FilterState) (ctf : ContractTypeFilters) (rs : List SurveyRecord),
      (filteredData f ctf rs).Sublist (annotateAll f rs)) ∧
    (∀ (f : FilterState) (ctf : ContractTypeFilters) (rs : List SurveyRecord)
      (a : AnnotatedRecord),
      a ∈ filteredData f ctf rs ↔
        a ∈ annotateAll f rs ∧ incomeOk a = true ∧ experienceOk f a = true ∧
          englishOk f a = true ∧ educationOk f a = true ∧
          contractOk ctf a = true) := by
  have h1 : ∀ (f : FilterState) (ctf : ContractTypeFilters) (a : AnnotatedRecord),
      passesFilter f ctf a =
        (incomeOk a && experienceOk f a && englishOk f a && educationOk f a &&
          contractOk ctf a) := by
    intro f ctf a
    simp [passesFilter, incomeOk, experienceOk, englishOk, educationOk,
      contractOk, Bool.and_assoc]
  refine ⟨h1, fun f ctf rs => List.filter_sublist _, ?_⟩
  intro f ctf rs a
  rw [filteredData, List.mem_filter, h1]
  simp [and_assoc]

/-- Witness for C2: the decomposition and the membership equivalence
evaluated at scenario record 1, whose membership in the filtered subset
is established through the five individual predicates. -/
theorem filter_predicate_decomposition_witness :
    passesFilter sampleFilters defaultContractTypeFilters
        (annotate sampleFilters sampleRecord1) =
      (incomeOk (annotate sampleFilters sampleRecord1) &&
        experienceOk sampleFilters (annotate sampleFilters sampleRecord1) &&
        englishOk sampleFilters (annotate sampleFilters sampleRecord1) &&
        educationOk sampleFilters (annotate sampleFilters sampleRecord1) &&
        contractOk defaultContractTypeFilters
          (annotate sampleFilters sampleRecord1)) ∧
    annotate sampleFilters sampleRecord1 ∈
      filteredData sampleFilters defaultContractTypeFilters [sampleRecord1] :=
  ⟨filter_predicate_decomposition.1 sampleFilters defaultContractTypeFilters
      (annotate sampleFilters sampleRecord1),
   (filter_predicate_decomposition.2.2 sampleFilters defaultContractTypeFilters
      [sampleRecord1] (annotate sampleFilters sampleRecord1)).mpr
     ⟨by simp [annotateAll],
      by norm_num +decide [incomeOk, annotate, comparableIncome, baseSalary,
        sampleFilters, sampleRecord1, jsDiv, jsMul, jsLe, maxSalary],
      by norm_num +decide [experienceOk, annotate, sampleFilters, sampleRecord1,
        jsLe, jsGe, jsLeInfinity],
      by norm_num +decide [englishOk, annotate, sampleFilters, sampleRecord1,
        jsLe, jsGe],
      by norm_num +decide [educationOk, annotate, sampleFilters, sampleRecord1,
        jsLe, jsGe],
      by norm_num +decide [contractOk, annotate, sampleRecord1,
        defaultContractTypeFilters, jsTruthy, List.lookup]⟩⟩

/-- C9: the filter-aggregate recomputation never writes a survey field:
attaching the derived income to every loaded record and reading the
annotated collection back gives the loaded records unchanged (same
records, same order, nothing deleted), and every element of the
filtered subset carries one of the loaded records — filtering only
selects which records are visible. -/
theorem records_read_only :
    (∀ (f : FilterState) (rs : List SurveyRecord),
      (annotateAll f rs).map AnnotatedRecord.record = rs) ∧
    (∀ (f : FilterState) (ctf : ContractTypeFilters) (rs : List SurveyRecord),
      ∀ a ∈ filteredData f ctf rs, a.record ∈ rs) := by
  have h1 : ∀ (f : FilterState) (rs : List SurveyRecord),
      (annotateAll f rs).map AnnotatedRecord.record = rs := by
    intro f rs
    rw [annotateAll, List.map_map]
    have hcomp : AnnotatedRecord.record ∘ annotate f = id := rfl
    rw [hcomp, List.map_id]
  refine ⟨h1, ?_⟩
  intro f ctf rs a ha
  have hmem : a ∈ annotateAll f rs := (List.mem_filter.mp ha).1
  have : a.record ∈ (annotateAll f rs).map AnnotatedRecord.record :=
    List.mem_map_of_mem AnnotatedRecord.record hmem
  rwa [h1] at this

/-- Witness for C9: both clauses at scenario record 1. -/
theorem records_read_only_witness :
    (annotateAll sampleFilters [sampleRecord1]).map AnnotatedRecord.record =
      [sampleRecord1] ∧
    (annotate sampleFilters sampleRecord1).record ∈ [sampleRecord1] :=
  ⟨records_read_only.1 sampleFilters [sampleRecord1],
   records_read_only.2 sampleFilters defaultContractTypeFilters [sampleRecord1]
     (annotate sampleFilters sampleRecord1)
     (by norm_num +decide [filteredData, annotateAll, annotate, passesFilter,
       comparableIncome, baseSalary, sampleFilters, sampleRecord1,
       defaultContractTypeFilters, jsDiv, jsMul, jsLe, jsGe, jsLeInfinity,
       jsTruthy, maxSalary, List.lookup, List.filter])⟩

/-- C10: looking up a contract type that is not a key of the mapping
yields `undefined`, treated as false, so the record fails the combined
predicate for every filter state and is never in the filtered subset;
under the default mapping this applies to every label other than
`"Laboral"` and `"Prestación de servicios/Contractor/Independiente"`. -/
theorem unknown_contract_type_excluded :
    (∀ (f : FilterState) (ctf : ContractTypeFilters) (a : AnnotatedRecord),
      ctf.lookup a.record.contractType = none →
      passesFilter f ctf a = false) ∧
    (∀ (f : FilterState) (a : AnnotatedRecord),
      a.record.contractType ≠ "Laboral" →
      a.record.contractType ≠ "Prestación de servicios/Contractor/Independiente" →
      passesFilter f defaultContractTypeFilters a = false) ∧
    (∀ (f : FilterState) (ctf : ContractTypeFilters) (rs : List SurveyRecord)
      (a : AnnotatedRecord),
      ctf.lookup a.record.contractType = none →
      a ∉ filteredData f ctf rs) := by
  have h1 : ∀ (f : FilterState) (ctf : ContractTypeFilters) (a : AnnotatedRecord),
      ctf.lookup a.record.contractType = none →
      passesFilter f ctf a = false := by
    intro f ctf a h
    simp [passesFilter, jsTruthy, h]
  refine ⟨h1, ?_, ?_⟩
  · intro f a hl hp
    apply h1
    have e1 : (a.record.contractType == "Laboral") = false :=
      beq_eq_false_iff_ne.mpr hl
    have e2 : (a.record.contractType ==
        "Prestación de servicios/Contractor/Independiente") = false :=
      beq_eq_false_iff_ne.mpr hp
    simp [defaultContractTypeFilters, List.lookup, e1, e2]
  · intro f ctf rs a h hmem
    have := (List.mem_filter.mp hmem).2
    rw [h1 f ctf a h] at this
    exact Bool.false_ne_true this

/-- Witness for C10: the record with contract type `"Becario"` is
rejected under the default mapping and absent from the filtered subset. -/
theorem unknown_contract_type_excluded_witness :
    passesFilter sampleFilters defaultContractTypeFilters
        (annotate sampleFilters sampleRecord3) = false ∧
    annotate sampleFilters sampleRecord3 ∉
      filteredData sampleFilters defaultContractTypeFilters [sampleRecord3] :=
  ⟨unknown_contract_type_excluded.2.1 sampleFilters
      (annotate sampleFilters sampleRecord3) (by decide) (by decide),
   unknown_contract_type_excluded.2.2 sampleFilters defaultContractTypeFilters
      [sampleRecord3] (annotate sampleFilters sampleRecord3) (by decide)⟩

/-- C8: a row with a `NaN` in any expected-numeric field — in particular
a fully malformed row with every numeric field `NaN` — fails the
combined filter predicate for every filter state (a `NaN` raw income
propagates to a `NaN` comparable income, which fails the income-ceiling
comparison; each other `NaN` fails its own range comparison, including
the `<= Infinity` experience bound), so the row is never in the
filtered subset and therefore contributes to no aggregate or grouped
result. -/
theorem malformed_row_excluded :
    (∀ (f : FilterState) (ctf : ContractTypeFilters) (d : SurveyRecord),
      d.incomeInCurrency = none ∨ d.minExperience = none ∨
        d.maxExperience = none ∨ d.englishLevel = none ∨ d.maxTitle = none →
      passesFilter f ctf (annotate f d) = false) ∧
    (∀ (f : FilterState) (ctf : ContractTypeFilters) (rs : List SurveyRecord)
      (d : SurveyRecord),
      d.incomeInCurrency = none ∨ d.minExperience = none ∨
        d.maxExperience = none ∨ d.englishLevel = none ∨ d.maxTitle = none →
      annotate f d ∉ filteredData f ctf rs) := by
  have hinc : ∀ (f : FilterState) (d : SurveyRecord),
      d.incomeInCurrency = none → comparableIncome f d = none := by
    intro f d h
    by_cases hc : d.currency = "Pesos" <;> by_cases hl : d.contractType = "Laboral" <;>
      simp [comparableIncome, baseSalary, jsDiv, jsMul, h, hc, hl]
  have h1 : ∀ (f : FilterState) (ctf : ContractTypeFilters) (d : SurveyRecord),
      d.incomeInCurrency = none ∨ d.minExperience = none ∨
        d.maxExperience = none ∨ d.englishLevel = none ∨ d.maxTitle = none →
      passesFilter f ctf (annotate f d) = false := by
    intro f ctf d h
    rcases h with h | h | h | h | h
    · simp [passesFilter, annotate, hinc f d h, jsLe]
    · by_cases hx : f.experience.max ≥ 15 <;>
        simp [passesFilter, annotate, jsLe, jsLeInfinity, h, hx]
    · simp [passesFilter, annotate, jsGe, jsLe, h]
    · simp [passesFilter, annotate, jsGe, jsLe, h]
    · simp [passesFilter, annotate, jsGe, jsLe, h]
  refine ⟨h1, ?_⟩
  intro f ctf rs d h hmem
  have := (List.mem_filter.mp hmem).2
  rw [h1 f ctf d h] at this
  exact Bool.false_ne_true this

/-- Witness for C8: the fully malformed record is rejected and absent. -/
theorem malformed_row_excluded_witness :
    passesFilter sampleFilters defaultContractTypeFilters
        (annotate sampleFilters malformedRecord) = false ∧
    annotate sampleFilters malformedRecord ∉
      filteredData sampleFilters defaultContractTypeFilters
        [sampleRecord1, malformedRecord] :=
  ⟨malformed_row_excluded.1 sampleFilters defaultContractTypeFilters
      malformedRecord (Or.inl rfl),
   malformed_row_excluded.2 sampleFilters defaultContractTypeFilters
      [sampleRecord1, malformedRecord] malformedRecord (Or.inl rfl)⟩

/-- C4: when the filtered subset is empty the pipeline yields a people
count of 0, a non-numeric mean and a non-numeric median (`none`, the JS
`undefined`/`NaN` result of rounding an undefined `d3.mean`/`d3.median`
— a state distinguishable from every genuine numeric result, never a
silent `0`), and the grouped aggregation emits no entries for any
grouping field and either metric. -/
theorem empty_subset_results :
    ∀ (f : FilterState) (ctf : ContractTypeFilters) (rs : List SurveyRecord),
      filteredData f ctf rs = [] →
      numberOfPeople f ctf rs = 0 ∧
      salaryMean f ctf rs = none ∧
      salaryMedian f ctf rs = none ∧
      ∀ (x : GroupField) (metric : Metric),
        processedData x metric (filteredData f ctf rs) = [] := by
  intro f ctf rs h
  refine ⟨?_, ?_, ?_, ?_⟩
  · simp [numberOfPeople, h]
  · simp [salaryMean, h, d3mean, roundTo3]
  · simp [salaryMedian, h, d3median, sortQ, medianOfSorted, listGetZ, jsAdd,
      jsDiv, roundTo3, List.insertionSort]
  · intro x metric
    simp [processedData, h, groupKeys, List.insertionSort]

/-- Witness for C4: the empty record collection filters to the empty
subset and produces the no-data results. -/
theorem empty_subset_results_witness :
    numberOfPeople sampleFilters defaultContractTypeFilters [] = 0 ∧
    salaryMean sampleFilters defaultContractTypeFilters [] = none ∧
    salaryMedian sampleFilters defaultContractTypeFilters [] = none ∧
    ∀ (x : GroupField) (metric : Metric),
      processedData x metric
        (filteredData sampleFilters defaultContractTypeFilters []) = [] :=
  empty_subset_results sampleFilters defaultContractTypeFilters [] rfl

/-- C3 (refuted — defect in the source): the reduce-remove functions do
not invert the reduce-add functions, so the incrementally maintained
aggregates diverge from the from-scratch aggregates as soon as a
removal occurs.  The mean remove executes `p.sum += v[y]` — it ADDS the
removed value — so after adding 67 and 9 and removing 67 the maintained
state is `count = 1`, `sum = 143`, `avg = 143`, while the group's
remaining member values are `[9]` with from-scratch mean 9.  The median
remove executes `p.values.filter(value !== v[y])` — it drops EVERY
occurrence of the removed value — so after adding 5 twice and removing
it once the maintained value list is empty and the maintained median is
the non-numeric `NaN`, while the remaining member values are `[5]` with
from-scratch median 5. -/
theorem reduce_remove_diverges :
    (runMean [.add 67, .add 9, .remove 67]).count = 1 ∧
    (runMean [.add 67, .add 9, .remove 67]).sum = some 143 ∧
    (runMean [.add 67, .add 9, .remove 67]).avg = some 143 ∧
    currentMembers [.add 67, .add 9, .remove 67] = [9] ∧
    scratchMean [9] = some 9 ∧
    (runMean [.add 67, .add 9, .remove 67]).avg ≠
      scratchMean (currentMembers [.add 67, .add 9, .remove 67]) ∧
    (runMedian [.add 5, .add 5, .remove 5]).values = [] ∧
    (runMedian [.add 5, .add 5, .remove 5]).median = none ∧
    currentMembers [.add 5, .add 5, .remove 5] = [5] ∧
    scratchMedian [5] = some 5 ∧
    (runMedian [.add 5, .add 5, .remove 5]).median ≠
      scratchMedian (currentMembers [.add 5, .add 5, .remove 5]) := by
  norm_num [runMean, runMedian, meanStep, medianStep, meanReduceAdd,
    meanReduceRemove, medianReduceAdd, medianReduceRemove, meanInitial,
    medianInitial, currentMembers, memberStep, scratchMean, scratchMedian,
    jsAdd, jsDiv, sortQ, List.insertionSort, List.orderedInsert,
    medianOfSorted, listGetZ, List.erase, List.filter]
  exact fun h => Option.noConfusion h

/-- C7: for every data collection (in particular every filtered
subset), grouping field and metric: the groups partition the data —
every record belongs to the group of its own key and to no other, with
its full multiplicity, and every group key's member list is non-empty;
`processedData` contains exactly the group entries whose rounded metric
value survives the positivity filter (each a `mkEntry`, which includes
relabeling the programming-language key `"Otro lenguaje de
programación"` to `"Otro"`); every emitted entry has a positive numeric
value; and the emitted entries are sorted ascending by metric value. -/
theorem processedData_properties (data : List AnnotatedRecord)
    (x : GroupField) (metric : Metric) :
    (∀ a ∈ data,
      a ∈ groupMembers x data (fieldValue x a) ∧
      (∀ k, a ∈ groupMembers x data k → k = fieldValue x a) ∧
      List.count a (groupMembers x data (fieldValue x a)) = List.count a data ∧
      fieldValue x a ∈ groupKeys x data) ∧
    (∀ k ∈ groupKeys x data, groupMembers x data k ≠ []) ∧
    (∀ e, e ∈ processedData x metric data ↔
      ∃ k, k ∈ groupKeys x data ∧ e = mkEntry x metric data k ∧
        truthyPositive e.valueToShow = true) ∧
    (∀ e ∈ processedData x metric data, ∃ q : ℚ, e.valueToShow = some q ∧ 0 < q) ∧
    List.Sorted entryLe (processedData x metric data) ∧
    relabelKey GroupField.mainProgrammingLanguage
      "Otro lenguaje de programación" = "Otro" := by
  have hmem : ∀ e, e ∈ processedData x metric data ↔
      ∃ k, k ∈ groupKeys x data ∧ e = mkEntry x metric data k ∧
        truthyPositive e.valueToShow = true := by
    intro e
    rw [processedData, (List.perm_insertionSort entryLe _).mem_iff,
      List.mem_filter, List.mem_map]
    constructor
    · rintro ⟨⟨k, hk, rfl⟩, ht⟩
      exact ⟨k, hk, rfl, ht⟩
    · rintro ⟨k, hk, rfl, ht⟩
      exact ⟨⟨k, hk, rfl⟩, ht⟩
  refine ⟨?_, ?_, hmem, ?_, ?_, rfl⟩
  · intro a ha
    refine ⟨?_, ?_, ?_, ?_⟩
    · exact List.mem_filter.mpr ⟨ha, beq_self_eq_true (fieldValue x a)⟩
    · intro k hk
      exact (beq_iff_eq.mp (List.mem_filter.mp hk).2).symm
    · exact List.count_filter (beq_self_eq_true (fieldValue x a))
    · exact List.mem_dedup.mpr (List.mem_map_of_mem (fieldValue x) ha)
  · intro k hk
    obtain ⟨a, ha, hfa⟩ := List.mem_map.mp (List.mem_dedup.mp hk)
    exact List.ne_nil_of_mem
      (List.mem_filter.mpr ⟨ha, beq_iff_eq.mpr hfa⟩)
  · intro e he
    obtain ⟨k, _, _, ht⟩ := (hmem e).mp he
    cases hv : e.valueToShow with
    | none => rw [hv] at ht; exact absurd ht (by simp [truthyPositive])
    | some q =>
      rw [hv] at ht
      rw [show truthyPositive (some q) = (decide (q ≠ 0) && decide (0 < q)) from rfl] at ht
      exact ⟨q, rfl, of_decide_eq_true (Bool.and_elim_right ht)⟩
  · exact List.sorted_insertionSort entryLe _

/-- Witness for C7: the clauses instantiated on the one-record data
collection of scenario record 1 grouped by work mode: the record is in
its own group, the emitted list is sorted, and the relabeling holds. -/
theorem processedData_properties_witness :
    annotate sampleFilters sampleRecord1 ∈
      groupMembers GroupField.workmode [annotate sampleFilters sampleRecord1]
        (fieldValue GroupField.workmode (annotate sampleFilters sampleRecord1)) ∧
    List.Sorted entryLe
      (processedData GroupField.workmode Metric.mean
        [annotate sampleFilters sampleRecord1]) ∧
    relabelKey GroupField.mainProgrammingLanguage
      "Otro lenguaje de programación" = "Otro" :=
  ⟨((processedData_properties [annotate sampleFilters sampleRecord1]
      GroupField.workmode Metric.mean).1 (annotate sampleFilters sampleRecord1)
      (List.mem_singleton.mpr rfl)).1,
   (processedData_properties [annotate sampleFilters sampleRecord1]
      GroupField.workmode Metric.mean).2.2.2.2.1,
   (processedData_properties [annotate sampleFilters sampleRecord1]
      GroupField.workmode Metric.mean).2.2.2.2.2⟩

end SalaryViz
